import Mathlib

/-!
Verification development for `scripts/build_muf_rt.py` (open-hamclock-backend).

The script is shallowly embedded here:
* pure numeric code is translated to functions over `ℚ` / `ℝ` (floating point is
  modelled by exact arithmetic, as usual for a shallow embedding);
* Python's `int()` (truncation toward zero) is `pyInt`;
* numpy's floored `%` on reals is `fmod`;
* `datetime.fromisoformat` / `.timestamp()` from the standard library are modelled
  by an explicit civil-calendar epoch function; a *naive* datetime's `.timestamp()`
  interprets the wall-clock fields in the local timezone, which we model by an
  explicit offset parameter `tzoff` (seconds east of UTC);
* the fallible parts (`np.argpartition` with an out-of-range `kth`, `try/except`)
  are modelled with `Option` / `Except`;
* the filesystem effects of `write_bmp` are modelled by a small state machine.
-/

namespace MufRT

open Real

/-! ## Calendar arithmetic (model of the stdlib behind `parse_time`)

`datetime.fromisoformat` produces civil wall-clock fields; the epoch of a UTC
wall-clock time is computed with the standard days-from-civil algorithm. -/

/-- Civil (proleptic Gregorian) wall-clock fields, as produced by
`datetime.fromisoformat` on a string like `2024-01-01T00:00:00`. -/
structure Civil where
  y : ℕ
  m : ℕ
  d : ℕ
  hh : ℕ
  mm : ℕ
  ss : ℕ
deriving DecidableEq

/-- Days since 1970-01-01 of a civil date (standard era/yoe/doy algorithm). -/
def daysFromCivil (Y M D : ℕ) : ℤ :=
  let y := if M ≤ 2 then Y - 1 else Y
  let era := y / 400
  let yoe := y % 400
  let mp := (M + 9) % 12
  let doy := (153 * mp + 2) / 5 + (D - 1)
  let doe := yoe * 365 + yoe / 4 - yoe / 100 + doy
  (era * 146097 + doe : ℤ) - 719468

/-- Epoch seconds of a civil wall-clock time read as a UTC instant. -/
def epochUTC (c : Civil) : ℤ :=
  daysFromCivil c.y c.m c.d * 86400 + (c.hh : ℤ) * 3600 + (c.mm : ℤ) * 60 + (c.ss : ℤ)

/-- Epoch seconds of a *naive* `datetime` as computed by `.timestamp()`:
the wall-clock fields are interpreted in the local timezone, whose offset east
of UTC (in seconds) is `tzoff`. -/
def naiveEpoch (tzoff : ℤ) (c : Civil) : ℤ :=
  epochUTC c - tzoff

/-! ## `parse_time` (build_muf_rt.py lines 27-33)

```
def parse_time(ts):
    if isinstance(ts, (int, float)):
        return float(ts)
    try:
        return dt.datetime.fromisoformat(ts.replace("Z", "")).timestamp()
    except Exception:
        return 0.0
```
-/

/-- A string argument of `parse_time`: either `fromisoformat` can parse it
(carrying its civil fields and whether a trailing `"Z"` was present), or not. -/
inductive IsoStr where
  | ok (c : Civil) (hasZ : Bool)
  | bad
deriving DecidableEq

/-- A Python value reaching `parse_time`: `int`, `float`, `str`, `None`
(a record with no `"time"` key), or anything else. -/
inductive PyVal where
  | vint (n : ℤ)
  | vfloat (q : ℚ)
  | vstr (s : IsoStr)
  | vnone
  | vother
deriving DecidableEq

/-- Model of `ts.replace("Z", "")`: drops the trailing `"Z"` marker. -/
def strReplaceZ : IsoStr → IsoStr
  | .ok c _ => .ok c false
  | .bad => .bad

/-- Model of `dt.datetime.fromisoformat`: succeeds exactly on parseable strings
(the script strips the `"Z"` first, so the result is a naive datetime). -/
def fromisoformat : IsoStr → Except Unit Civil
  | .ok c _ => .ok c
  | .bad => .error ()

/-- `parse_time`, with the ambient local-timezone offset `tzoff` made explicit
(it is consumed by the naive `.timestamp()` call).  `None` and non-string
non-numeric arguments raise `AttributeError` on `.replace`, unparseable strings
raise `ValueError` in `fromisoformat`; both are caught and give `0.0`. -/
def parse_time (tzoff : ℤ) : PyVal → ℚ
  | .vint n => (n : ℚ)
  | .vfloat q => q
  | .vstr s =>
      match fromisoformat (strReplaceZ s) with
      | .ok c => ((naiveEpoch tzoff c : ℤ) : ℚ)
      | .error _ => 0
  | .vnone => 0
  | .vother => 0

/-! ## Ingestion filters (build_muf_rt.py lines 133-136)

```
        if now-parse_time(r.get("time"))>3600: continue
        conf=float(r.get("confidence",1))
        if conf>1: conf/=100
```
-/

/-- The freshness filter of line 133: a record is kept unless it is strictly
more than 3600 seconds old. -/
def keepFresh (now t : ℚ) : Bool :=
  if now - t > 3600 then false else true

/-- Confidence adjustment of lines 134-136: default `1` when the key is absent,
values strictly above `1` are divided by `100`. -/
def adjustConf (raw : Option ℚ) : ℚ :=
  let c := raw.getD 1
  if c > 1 then c / 100 else c

/-! ## `lonlat_to_xy` (build_muf_rt.py lines 43-46)

```
def lonlat_to_xy(lon, lat, w, h):
    x = int((lon+180)/360*(w-1))
    y = int((90-lat)/180*(h-1))
    return max(0,min(w-1,x)), max(0,min(h-1,y))
```
-/

/-- Python's `int()` on a rational: truncation toward zero. -/
def pyInt (q : ℚ) : ℤ :=
  if 0 ≤ q then ⌊q⌋ else ⌈q⌉

/-- Pixel coordinates of a longitude/latitude pair on a `w × h` grid. -/
def lonlat_to_xy (lon lat : ℚ) (w h : ℤ) : ℤ × ℤ :=
  (max 0 (min (w - 1) (pyInt ((lon + 180) / 360 * ((w : ℚ) - 1)))),
   max 0 (min (h - 1) (pyInt ((90 - lat) / 180 * ((h : ℚ) - 1)))))

lemma pyInt_intCast (n : ℤ) : pyInt (n : ℚ) = n := by
  unfold pyInt
  split <;> simp

/-! ## `colormap` (build_muf_rt.py lines 49-62)

```
def colormap(mhz):
    stops = [
        (5,0,0,180),(10,0,180,255),(15,0,255,0),
        (20,255,255,0),(25,255,165,0),(30,255,60,0),(35,255,0,0)
    ]
    ...
    r = np.interp(flat,xs,rs)
    ...
    return np.stack([r,g,b],axis=1).astype(np.uint8).reshape((*mhz.shape,3))
```
-/

/-- One-dimensional linear interpolation over an ascending table of
`(x, y)` pairs, as computed by `np.interp`: values below the first knot clamp
to the first `y`, values above the last knot clamp to the last `y`, and values
in between are linearly interpolated. -/
def interp1 : ℚ → List (ℚ × ℚ) → ℚ
  | _, [] => 0
  | _, [(_, y0)] => y0
  | x, (x0, y0) :: (x1, y1) :: rest =>
      if x < x0 then y0
      else if x ≤ x1 then y0 + (y1 - y0) * (x - x0) / (x1 - x0)
      else interp1 x ((x1, y1) :: rest)

/-- `np.interp(x, xs, ys)` with the two coordinate lists zipped. -/
def npInterp (x : ℚ) (xs ys : List ℚ) : ℚ :=
  interp1 x (xs.zip ys)

/-- The fixed 7-stop color table of `colormap`. -/
def stopTable : List (ℚ × ℚ × ℚ × ℚ) :=
  [(5, 0, 0, 180), (10, 0, 180, 255), (15, 0, 255, 0),
   (20, 255, 255, 0), (25, 255, 165, 0), (30, 255, 60, 0), (35, 255, 0, 0)]

/-- The `xs` array of `colormap`. -/
def xsTab : List ℚ := stopTable.map fun s => s.1

/-- The `rs` array of `colormap`. -/
def rsTab : List ℚ := stopTable.map fun s => s.2.1

/-- The `gs` array of `colormap`. -/
def gsTab : List ℚ := stopTable.map fun s => s.2.2.1

/-- The `bs` array of `colormap`. -/
def bsTab : List ℚ := stopTable.map fun s => s.2.2.2

/-- Red channel of the color ramp (before the `uint8` cast). -/
def chanR (x : ℚ) : ℚ := npInterp x xsTab rsTab

/-- Green channel of the color ramp (before the `uint8` cast). -/
def chanG (x : ℚ) : ℚ := npInterp x xsTab gsTab

/-- Blue channel of the color ramp (before the `uint8` cast). -/
def chanB (x : ℚ) : ℚ := npInterp x xsTab bsTab

/-- `astype(np.uint8)`: C truncation toward zero followed by the wrap into
`[0, 256)`. -/
def u8cast (q : ℚ) : ℤ :=
  pyInt q % 256

/-- The full per-value colormap: each channel interpolated over the stop table
and cast to `uint8`. -/
def colormap (mhz : ℚ) : ℤ × ℤ × ℤ :=
  (u8cast (chanR mhz), u8cast (chanG mhz), u8cast (chanB mhz))

/-! ## `write_bmp` (build_muf_rt.py lines 86-103)

```
    open(out+".tmp","wb").write(bmp)
    open(out+".z.tmp","wb").write(zlib.compress(bmp,9))
    os.replace(out+".tmp",out)
    os.replace(out+".z.tmp",out+".z")
```

The in-memory construction of the `bmp` byte string is pure; the four
filesystem effects are modelled as a state machine over the four paths the
function touches.  `compress` abstracts `zlib.compress(·, 9)`. -/

/-- Contents of the four paths touched by `write_bmp` (`none` = absent). -/
structure FsState where
  tmpRaw : Option (List ℕ)
  tmpZ : Option (List ℕ)
  outRaw : Option (List ℕ)
  outZ : Option (List ℕ)
deriving DecidableEq

/-- The four filesystem steps of `write_bmp`, in program order: write the raw
bitmap to `out+".tmp"`, write the compressed copy to `out+".z.tmp"`, rename
the first onto `out`, rename the second onto `out+".z"`. -/
def write_bmp_steps (compress : List ℕ → List ℕ) (bmp : List ℕ) : List (FsState → FsState) :=
  [fun s => { s with tmpRaw := some bmp },
   fun s => { s with tmpZ := some (compress bmp) },
   fun s => { s with outRaw := s.tmpRaw, tmpRaw := none },
   fun s => { s with outZ := s.tmpZ, tmpZ := none }]

/-- State after the first `n` steps of `write_bmp` have executed (a failure
after step `n` leaves exactly this state behind). -/
def write_bmp_run (compress : List ℕ → List ℕ) (bmp : List ℕ) (n : ℕ) (s0 : FsState) : FsState :=
  ((write_bmp_steps compress bmp).take n).foldl (fun s f => f s) s0

/-! ## `haversine_rad` (build_muf_rt.py lines 36-40)

```
def haversine_rad(lon1, lat1, lon2, lat2):
    dlon = (lon2 - lon1 + np.pi) % (2*np.pi) - np.pi
    dlat = lat2 - lat1
    a = np.sin(dlat/2)**2 + np.cos(lat1)*np.cos(lat2)*np.sin(dlon/2)**2
    return 2*np.arcsin(np.sqrt(a))
```
-/

/-- numpy's floored modulo on reals: `x % y = x - y * floor(x / y)`. -/
noncomputable def fmod (x y : ℝ) : ℝ :=
  x - y * (⌊x / y⌋ : ℤ)

/-- Great-circle angular distance via the haversine formula, with the
longitude difference reduced by the floored modulo as in the source. -/
noncomputable def haversine_rad (lon1 lat1 lon2 lat2 : ℝ) : ℝ :=
  2 * arcsin (Real.sqrt (sin ((lat2 - lat1) / 2) ^ 2 +
    cos lat1 * cos lat2 * sin ((fmod (lon2 - lon1 + π) (2 * π) - π) / 2) ^ 2))

/-! ## `solar_mu0` (build_muf_rt.py lines 65-77) and the interpolation loop
(lines 143-171) -/

/-- `np.deg2rad`. -/
noncomputable def deg2rad (x : ℝ) : ℝ :=
  x * π / 180

/-- `np.clip(x, lo, hi)`. -/
noncomputable def clipR (x lo hi : ℝ) : ℝ :=
  min (max x lo) hi

/-- Log-transformed observation value (line 140):
`np.log(np.clip(vals, 5, 35))`. -/
noncomputable def logVal (v : ℝ) : ℝ :=
  Real.log (clipR v 5 35)

/-- Cosine of the solar zenith angle, clipped to `[0, 1]` (lines 65-77). -/
noncomputable def solar_mu0 (lat lon t : ℝ) : ℝ :=
  let jd := t / 86400 + 2440587.5
  let n := jd - 2451545
  let L := deg2rad (fmod (280.46 + 0.9856474 * n) 360)
  let g := deg2rad (fmod (357.528 + 0.9856003 * n) 360)
  let lam := L + deg2rad (1.915 * sin g + 0.020 * sin (2 * g))
  let eps := deg2rad 23.439
  let delta := arcsin (sin eps * sin lam)
  let gmst := fmod (280.46061837 + 360.98564736629 * n) 360
  let H := deg2rad (fmod (lon + gmst + 540) 360 - 180)
  let phi := deg2rad lat
  clipR (sin phi * sin delta + cos phi * cos delta * cos H) 0 1

/-- One ingested observation as consumed by the interpolation loop
(coordinates in degrees, raw MUF in MHz, adjusted confidence). -/
structure ObsR where
  lon : ℝ
  lat : ℝ
  muf : ℝ
  conf : ℝ

open scoped Classical in
/-- Model of `np.argpartition(d, k-1)[..., :k]` per cell: the indices of the
`k` nearest observations.  numpy raises `ValueError` when the partition index
`k-1` is out of bounds for the observation axis, i.e. unless `k-1 < n`;
this is the `none` case. -/
noncomputable def selectIdx (k : ℕ) (d : List ℝ) : Option (List ℕ) :=
  if k - 1 < d.length then
    some (((List.range d.length).insertionSort fun i j => d.getD i 0 ≤ d.getD j 0).take k)
  else none

/-- Angular distances from one grid cell to every observation (line 154, with
the degree-to-radian conversions of lines 143 and 148). -/
noncomputable def cellDists (obs : List ObsR) (lonDeg latDeg : ℝ) : List ℝ :=
  obs.map fun o => haversine_rad (deg2rad lonDeg) (deg2rad latDeg) (deg2rad o.lon) (deg2rad o.lat)

/-- Per-cell interpolation (lines 153-169): k-nearest selection, inverse
distance weights with `eps = 1e-6` and exponent `p`, confidence multiplier,
influence-radius cutoff, latitude attenuation `cos(|lat|)^1.5`, optional solar
weighting `mu0^0.7`, and the weighted geometric mean
`exp(sum(w*v) / (sum(w) + 1e-9))` over the log-values. -/
noncomputable def interpCell (k : ℕ) (p maxrad : ℝ) (useSza : Bool) (t : ℝ)
    (obs : List ObsR) (lonDeg latDeg : ℝ) : Option ℝ :=
  (selectIdx k (cellDists obs lonDeg latDeg)).map fun idx =>
    let dk := idx.map fun i => (cellDists obs lonDeg latDeg).getD i 0
    let wk1 := dk.map fun x => 1 / (x + 1e-6) ^ p
    let wk2 := (wk1.zip (idx.map fun i => (obs.map ObsR.conf).getD i 0)).map fun z => z.1 * z.2
    let wk3 := (wk2.zip dk).map fun z => if z.2 ≤ maxrad then z.1 else 0
    let latfac := cos (deg2rad |latDeg|) ^ (1.5 : ℝ)
    let wk4 := wk3.map fun x => x * latfac
    let wk5 := if useSza then wk4.map fun x => x * solar_mu0 latDeg lonDeg t ^ (0.7 : ℝ) else wk4
    let vk := idx.map fun i => (obs.map fun o => logVal o.muf).getD i 0
    Real.exp (((wk5.zip vk).map fun z => z.1 * z.2).sum / (wk5.sum + 1e-9))

/-- Final field value of one cell: the interpolated value clipped to `[5, 35]`
(line 171). -/
noncomputable def fieldCell (k : ℕ) (p maxrad : ℝ) (useSza : Bool) (t : ℝ)
    (obs : List ObsR) (lonDeg latDeg : ℝ) : Option ℝ :=
  (interpCell k p maxrad useSza t obs lonDeg latDeg).map fun v => clipR v 5 35

/-! ## Theorems -/

lemma sin_sq_half (x : ℝ) : sin (x / 2) ^ 2 = 1 / 2 - cos x / 2 := by
  have h2 : (2 : ℝ) * (x / 2) = x := by ring
  rw [Real.sin_sq, Real.cos_sq, h2]
  ring

lemma sin_sq_half_fmod (u : ℝ) :
    sin ((fmod (u + π) (2 * π) - π) / 2) ^ 2 = 1 / 2 - cos u / 2 := by
  have hk : fmod (u + π) (2 * π) - π = u - (⌊(u + π) / (2 * π)⌋ : ℤ) * (2 * π) := by
    unfold fmod
    ring
  rw [hk, sin_sq_half, Real.cos_sub_int_mul_two_pi]

/-- C6. `haversine_rad` is symmetric, vanishes on coincident points, gives `π`
on antipodal points (for every representation of the antipodal longitude), and
is invariant under shifting a longitude by full turns, so the result is
unchanged across the antimeridian. -/
theorem haversine_rad_properties :
    (∀ lon1 lat1 lon2 lat2 : ℝ,
        haversine_rad lon1 lat1 lon2 lat2 = haversine_rad lon2 lat2 lon1 lat1) ∧
      (∀ lon lat : ℝ, haversine_rad lon lat lon lat = 0) ∧
      (∀ lon lat : ℝ, ∀ k : ℤ, haversine_rad lon lat (lon + π + 2 * π * k) (-lat) = π) ∧
      (∀ lon1 lat1 lon2 lat2 : ℝ, ∀ k : ℤ,
        haversine_rad lon1 lat1 (lon2 + 2 * π * k) lat2 = haversine_rad lon1 lat1 lon2 lat2) := by
  refine ⟨?_, ?_, ?_, ?_⟩
  · intro lon1 lat1 lon2 lat2
    unfold haversine_rad
    rw [sin_sq_half_fmod, sin_sq_half_fmod, sin_sq_half, sin_sq_half,
      Real.cos_sub, Real.cos_sub, Real.cos_sub, Real.cos_sub]
    ring_nf
  · intro lon lat
    unfold haversine_rad
    rw [sin_sq_half_fmod, sin_sq_half]
    simp only [sub_self, Real.cos_zero]
    norm_num
  · intro lon lat k
    unfold haversine_rad
    have harg : sin ((-lat - lat) / 2) ^ 2 + cos lat * cos (-lat) *
        sin ((fmod (lon + π + 2 * π * (k : ℝ) - lon + π) (2 * π) - π) / 2) ^ 2 = 1 := by
      rw [sin_sq_half_fmod, sin_sq_half, Real.cos_neg]
      have h1 : cos (lon + π + 2 * π * (k : ℝ) - lon) = -1 := by
        have h2 : lon + π + 2 * π * (k : ℝ) - lon = π + (k : ℝ) * (2 * π) := by ring
        rw [h2, Real.cos_add_int_mul_two_pi, Real.cos_pi]
      rw [h1]
      have h3 : cos (-lat - lat) = 2 * cos lat ^ 2 - 1 := by
        have h4 : -lat - lat = 2 * -lat := by ring
        rw [h4, Real.cos_two_mul, Real.cos_neg]
      rw [h3]
      ring
    rw [harg, Real.sqrt_one, Real.arcsin_one]
    ring
  · intro lon1 lat1 lon2 lat2 k
    unfold haversine_rad
    rw [sin_sq_half_fmod, sin_sq_half_fmod]
    have h1 : cos (lon2 + 2 * π * (k : ℝ) - lon1) = cos (lon2 - lon1) := by
      have h2 : lon2 + 2 * π * (k : ℝ) - lon1 = lon2 - lon1 + (k : ℝ) * (2 * π) := by ring
      rw [h2, Real.cos_add_int_mul_two_pi]
    rw [h1]

lemma selectIdx_eq_none (k : ℕ) (d : List ℝ) (h : d.length < k) :
    selectIdx k d = none := by
  unfold selectIdx
  rw [if_neg]
  omega

/-- C1. With fewer observations than `k` (zero observations included), the
per-cell k-nearest selection does not degrade gracefully: `np.argpartition`
with partition index `k-1` is out of bounds, so the interpolation raises
instead of producing a field value. -/
theorem interpCell_fewer_than_k (k : ℕ) (p maxrad : ℝ) (useSza : Bool) (t : ℝ)
    (obs : List ObsR) (lonDeg latDeg : ℝ) (hk : obs.length < k) :
    interpCell k p maxrad useSza t obs lonDeg latDeg = none := by
  unfold interpCell
  rw [selectIdx_eq_none _ _ (by simpa [cellDists] using hk)]
  rfl

/-- C1 witness: the empty observation set with the default `k = 16` errors. -/
theorem interpCell_fewer_than_k_witness :
    interpCell 16 2.8 (4000 / 6371) false 0 [] 0 0 = none :=
  interpCell_fewer_than_k 16 2.8 (4000 / 6371) false 0 [] 0 0 (by decide)

/-- C5. Whenever the interpolation loop produces a field value, that value
lies within `[5, 35]` (because of the final clip of line 171); moreover the
out-of-range observation value 1000 MHz is clamped to 35 before the
log-transform. -/
theorem fieldCell_in_range :
    (∀ (k : ℕ) (p maxrad : ℝ) (useSza : Bool) (t : ℝ) (obs : List ObsR) (lonDeg latDeg : ℝ),
        5 ≤ (fieldCell k p maxrad useSza t obs lonDeg latDeg).getD 5 ∧
          (fieldCell k p maxrad useSza t obs lonDeg latDeg).getD 5 ≤ 35) ∧
      clipR 1000 5 35 = 35 ∧ logVal 1000 = Real.log 35 := by
  refine ⟨?_, ?_, ?_⟩
  · intro k p maxrad useSza t obs lonDeg latDeg
    unfold fieldCell
    cases h : interpCell k p maxrad useSza t obs lonDeg latDeg with
    | none => norm_num
    | some v =>
        show 5 ≤ clipR v 5 35 ∧ clipR v 5 35 ≤ 35
        unfold clipR
        exact ⟨le_min (le_max_right _ _) (by norm_num), min_le_right _ _⟩
  · unfold clipR
    rw [max_eq_left (by norm_num), min_eq_right (by norm_num)]
  · unfold logVal clipR
    rw [max_eq_left (by norm_num), min_eq_right (by norm_num)]

/-- C3. The freshness filter is a strict greater-than on age: a record whose
parsed timestamp is exactly 3600 seconds before `now` is retained, and one
exactly 3601 seconds before `now` is excluded. -/
theorem keepFresh_boundary (now : ℚ) :
    keepFresh now (now - 3600) = true ∧ keepFresh now (now - 3601) = false := by
  constructor
  · unfold keepFresh
    rw [if_neg]
    intro hgt
    linarith
  · unfold keepFresh
    rw [if_pos]
    linarith

/-- C4 counterexample. The claim that every retained record has confidence in
`[0,1]` whatever the raw value fails: a raw confidence of `150` is divided by
`100` and gives `3/2`, which is strictly greater than `1`. -/
theorem adjustConf_out_of_range :
    adjustConf (some 150) = 3 / 2 ∧ ¬ adjustConf (some 150) ≤ 1 := by
  constructor
  · norm_num [adjustConf]
  · norm_num [adjustConf]

/-- C4 (amended). Confidence defaults to `1` when absent, `50` becomes `1/2`,
`1/2` is kept unchanged, and the `[0,1]` invariant holds for every raw
confidence in `[0,100]` (raw values above `100` escape it, see the
counterexample). -/
theorem adjustConf_spec :
    adjustConf none = 1 ∧ adjustConf (some 50) = 1 / 2 ∧
      adjustConf (some (1 / 2)) = 1 / 2 ∧
      (∀ c : ℚ, 0 ≤ c → c ≤ 100 → 0 ≤ adjustConf (some c) ∧ adjustConf (some c) ≤ 1) := by
  refine ⟨by norm_num [adjustConf], by norm_num [adjustConf], by norm_num [adjustConf], ?_⟩
  intro c h0 h100
  unfold adjustConf
  simp only [Option.getD_some]
  by_cases hc : c > 1
  · rw [if_pos hc]
    constructor
    · positivity
    · rw [div_le_one (by norm_num)]
      exact h100
  · rw [if_neg hc]
    exact ⟨h0, le_of_not_lt hc⟩

/-- C4 witness: the amended bound applied at the concrete raw confidence 50. -/
theorem adjustConf_spec_witness :
    0 ≤ adjustConf (some 50) ∧ adjustConf (some 50) ≤ 1 :=
  adjustConf_spec.2.2.2 50 (by norm_num) (by norm_num)

/-- C10. `parse_time` is total: every numeric argument is returned as-is, and
every non-numeric argument that cannot be parsed as an ISO timestamp (an
unparseable string, `None`, or any other value) yields exactly `0.0`.  In the
embedding `parse_time` is a total function into `ℚ`, so it never raises. -/
theorem parse_time_total (tzoff : ℤ) :
    (∀ n : ℤ, parse_time tzoff (.vint n) = (n : ℚ)) ∧
      (∀ q : ℚ, parse_time tzoff (.vfloat q) = q) ∧
      parse_time tzoff (.vstr .bad) = 0 ∧
      parse_time tzoff .vnone = 0 ∧
      parse_time tzoff .vother = 0 :=
  ⟨fun _ => rfl, fun _ => rfl, rfl, rfl, rfl⟩

/-- C2. Evaluation of `parse_time` on `"2024-01-01T00:00:00Z"`: stripping the
`"Z"` yields a naive datetime, whose `.timestamp()` uses the local timezone.
With a local offset of +3600 s the result is 1704063600, one hour less than
the epoch 1704067200 of the UTC instant the string denotes, so the result is
not independent of the local timezone. -/
theorem parse_time_not_tz_independent :
    parse_time 3600 (.vstr (.ok ⟨2024, 1, 1, 0, 0, 0⟩ true)) = 1704063600 ∧
      parse_time 0 (.vstr (.ok ⟨2024, 1, 1, 0, 0, 0⟩ true)) = 1704067200 ∧
      epochUTC ⟨2024, 1, 1, 0, 0, 0⟩ = 1704067200 := by
  refine ⟨?_, ?_, ?_⟩ <;> decide

/-- C8. For grids at least 2×2, `lonlat_to_xy` maps every in-range
longitude/latitude pair into grid bounds inclusive, and the endpoints map to
the corner pixels: `(-180, 90) ↦ (0, 0)` and `(180, -90) ↦ (w-1, h-1)`. -/
theorem lonlat_to_xy_bounds (w h : ℤ) (hw : 2 ≤ w) (hh2 : 2 ≤ h) :
    (∀ lon lat : ℚ, -180 ≤ lon → lon ≤ 180 → -90 ≤ lat → lat ≤ 90 →
        0 ≤ (lonlat_to_xy lon lat w h).1 ∧ (lonlat_to_xy lon lat w h).1 ≤ w - 1 ∧
        0 ≤ (lonlat_to_xy lon lat w h).2 ∧ (lonlat_to_xy lon lat w h).2 ≤ h - 1) ∧
      lonlat_to_xy (-180) 90 w h = (0, 0) ∧
      lonlat_to_xy 180 (-90) w h = (w - 1, h - 1) := by
  refine ⟨?_, ?_, ?_⟩
  · intro lon lat _ _ _ _
    unfold lonlat_to_xy
    refine ⟨le_max_left _ _, ?_, le_max_left _ _, ?_⟩
    · exact max_le (by omega) (min_le_left _ _)
    · exact max_le (by omega) (min_le_left _ _)
  · unfold lonlat_to_xy
    have hx : ((-180 : ℚ) + 180) / 360 * ((w : ℚ) - 1) = ((0 : ℤ) : ℚ) := by
      push_cast
      ring
    have hy : ((90 : ℚ) - 90) / 180 * ((h : ℚ) - 1) = ((0 : ℤ) : ℚ) := by
      push_cast
      ring
    rw [hx, hy, pyInt_intCast]
    have hminw : min (w - 1) 0 = 0 := min_eq_right (by omega)
    have hminh : min (h - 1) 0 = 0 := min_eq_right (by omega)
    rw [hminw, hminh]
    simp
  · unfold lonlat_to_xy
    have hx : ((180 : ℚ) + 180) / 360 * ((w : ℚ) - 1) = ((w - 1 : ℤ) : ℚ) := by
      push_cast
      ring
    have hy : ((90 : ℚ) - (-90)) / 180 * ((h : ℚ) - 1) = ((h - 1 : ℤ) : ℚ) := by
      push_cast
      ring
    rw [hx, hy, pyInt_intCast, pyInt_intCast, min_self, min_self]
    rw [max_eq_right (by omega : (0 : ℤ) ≤ w - 1), max_eq_right (by omega : (0 : ℤ) ≤ h - 1)]

/-- C8 witness: the bounds and both corner maps at the concrete grid 2×2. -/
theorem lonlat_to_xy_bounds_witness :
    (0 ≤ (lonlat_to_xy 0 0 2 2).1 ∧ (lonlat_to_xy 0 0 2 2).1 ≤ 1 ∧
        0 ≤ (lonlat_to_xy 0 0 2 2).2 ∧ (lonlat_to_xy 0 0 2 2).2 ≤ 1) ∧
      lonlat_to_xy (-180) 90 2 2 = (0, 0) ∧ lonlat_to_xy 180 (-90) 2 2 = (1, 1) := by
  have h := lonlat_to_xy_bounds 2 2 (by norm_num) (by norm_num)
  refine ⟨?_, h.2.1, ?_⟩
  · have := h.1 0 0 (by norm_num) (by norm_num) (by norm_num) (by norm_num)
    simpa using this
  · have := h.2.2
    norm_num at this
    exact this

lemma chanR_def (x : ℚ) :
    chanR x = interp1 x [(5, 0), (10, 0), (15, 0), (20, 255), (25, 255), (30, 255), (35, 255)] :=
  rfl

lemma chanG_def (x : ℚ) :
    chanG x = interp1 x [(5, 0), (10, 180), (15, 255), (20, 255), (25, 165), (30, 60), (35, 0)] :=
  rfl

lemma chanB_def (x : ℚ) :
    chanB x = interp1 x [(5, 180), (10, 255), (15, 0), (20, 0), (25, 0), (30, 0), (35, 0)] :=
  rfl

lemma interp1_tab_seg1 (x a b c d e f g : ℚ) (h0 : 5 ≤ x) (h1 : x ≤ 10) :
    interp1 x [(5, a), (10, b), (15, c), (20, d), (25, e), (30, f), (35, g)] =
      a + (b - a) * (x - 5) / 5 := by
  unfold interp1
  rw [if_neg (by linarith), if_pos h1]
  norm_num

lemma interp1_tab_seg2 (x a b c d e f g : ℚ) (h0 : 10 ≤ x) (h1 : x ≤ 15) :
    interp1 x [(5, a), (10, b), (15, c), (20, d), (25, e), (30, f), (35, g)] =
      b + (c - b) * (x - 10) / 5 := by
  rcases eq_or_lt_of_le h0 with h | h
  · rw [← h]
    norm_num [interp1]
  · unfold interp1
    rw [if_neg (by linarith), if_neg (by linarith)]
    unfold interp1
    rw [if_neg (by linarith), if_pos h1]
    norm_num

lemma interp1_tab_seg3 (x a b c d e f g : ℚ) (h0 : 15 ≤ x) (h1 : x ≤ 20) :
    interp1 x [(5, a), (10, b), (15, c), (20, d), (25, e), (30, f), (35, g)] =
      c + (d - c) * (x - 15) / 5 := by
  rcases eq_or_lt_of_le h0 with h | h
  · rw [← h]
    norm_num [interp1]
  · unfold interp1
    rw [if_neg (by linarith), if_neg (by linarith)]
    unfold interp1
    rw [if_neg (by linarith), if_neg (by linarith)]
    unfold interp1
    rw [if_neg (by linarith), if_pos h1]
    norm_num

lemma interp1_tab_seg4 (x a b c d e f g : ℚ) (h0 : 20 ≤ x) (h1 : x ≤ 25) :
    interp1 x [(5, a), (10, b), (15, c), (20, d), (25, e), (30, f), (35, g)] =
      d + (e - d) * (x - 20) / 5 := by
  rcases eq_or_lt_of_le h0 with h | h
  · rw [← h]
    norm_num [interp1]
  · unfold interp1
    rw [if_neg (by linarith), if_neg (by linarith)]
    unfold interp1
    rw [if_neg (by linarith), if_neg (by linarith)]
    unfold interp1
    rw [if_neg (by linarith), if_neg (by linarith)]
    unfold interp1
    rw [if_neg (by linarith), if_pos h1]
    norm_num

lemma interp1_tab_seg5 (x a b c d e f g : ℚ) (h0 : 25 ≤ x) (h1 : x ≤ 30) :
    interp1 x [(5, a), (10, b), (15, c), (20, d), (25, e), (30, f), (35, g)] =
      e + (f - e) * (x - 25) / 5 := by
  rcases eq_or_lt_of_le h0 with h | h
  · rw [← h]
    norm_num [interp1]
  · unfold interp1
    rw [if_neg (by linarith), if_neg (by linarith)]
    unfold interp1
    rw [if_neg (by linarith), if_neg (by linarith)]
    unfold interp1
    rw [if_neg (by linarith), if_neg (by linarith)]
    unfold interp1
    rw [if_neg (by linarith), if_neg (by linarith)]
    unfold interp1
    rw [if_neg (by linarith), if_pos h1]
    norm_num

lemma interp1_tab_seg6 (x a b c d e f g : ℚ) (h0 : 30 ≤ x) (h1 : x ≤ 35) :
    interp1 x [(5, a), (10, b), (15, c), (20, d), (25, e), (30, f), (35, g)] =
      f + (g - f) * (x - 30) / 5 := by
  rcases eq_or_lt_of_le h0 with h | h
  · rw [← h]
    norm_num [interp1]
  · unfold interp1
    rw [if_neg (by linarith), if_neg (by linarith)]
    unfold interp1
    rw [if_neg (by linarith), if_neg (by linarith)]
    unfold interp1
    rw [if_neg (by linarith), if_neg (by linarith)]
    unfold interp1
    rw [if_neg (by linarith), if_neg (by linarith)]
    unfold interp1
    rw [if_neg (by linarith), if_neg (by linarith)]
    unfold interp1
    rw [if_neg (by linarith), if_pos h1]
    norm_num

/-- C9. The colormap is the piecewise-linear ramp over the fixed 7-stop table:
it is exact at every stop (in particular 5 ↦ (0,0,180), 20 ↦ (255,255,0),
35 ↦ (255,0,0), with no interpolation error), and on each of the six segments
between adjacent stops every channel is monotone in the direction its stop
values dictate. -/
theorem colormap_stops_and_monotone :
    colormap 5 = (0, 0, 180) ∧ colormap 10 = (0, 180, 255) ∧ colormap 15 = (0, 255, 0) ∧
      colormap 20 = (255, 255, 0) ∧ colormap 25 = (255, 165, 0) ∧ colormap 30 = (255, 60, 0) ∧
      colormap 35 = (255, 0, 0) ∧
      (∀ a b : ℚ, a ≤ b →
        (5 ≤ a → b ≤ 10 → chanR a ≤ chanR b ∧ chanG a ≤ chanG b ∧ chanB a ≤ chanB b) ∧
        (10 ≤ a → b ≤ 15 → chanR a ≤ chanR b ∧ chanG a ≤ chanG b ∧ chanB b ≤ chanB a) ∧
        (15 ≤ a → b ≤ 20 → chanR a ≤ chanR b ∧ chanG a ≤ chanG b ∧ chanB a ≤ chanB b) ∧
        (20 ≤ a → b ≤ 25 → chanR a ≤ chanR b ∧ chanG b ≤ chanG a ∧ chanB a ≤ chanB b) ∧
        (25 ≤ a → b ≤ 30 → chanR a ≤ chanR b ∧ chanG b ≤ chanG a ∧ chanB a ≤ chanB b) ∧
        (30 ≤ a → b ≤ 35 → chanR a ≤ chanR b ∧ chanG b ≤ chanG a ∧ chanB a ≤ chanB b)) := by
  refine ⟨?_, ?_, ?_, ?_, ?_, ?_, ?_, ?_⟩
  · norm_num [colormap, u8cast, pyInt, chanR, chanG, chanB, npInterp, xsTab, rsTab, gsTab,
      bsTab, stopTable, interp1]
  · norm_num [colormap, u8cast, pyInt, chanR, chanG, chanB, npInterp, xsTab, rsTab, gsTab,
      bsTab, stopTable, interp1]
  · norm_num [colormap, u8cast, pyInt, chanR, chanG, chanB, npInterp, xsTab, rsTab, gsTab,
      bsTab, stopTable, interp1]
  · norm_num [colormap, u8cast, pyInt, chanR, chanG, chanB, npInterp, xsTab, rsTab, gsTab,
      bsTab, stopTable, interp1]
  · norm_num [colormap, u8cast, pyInt, chanR, chanG, chanB, npInterp, xsTab, rsTab, gsTab,
      bsTab, stopTable, interp1]
  · norm_num [colormap, u8cast, pyInt, chanR, chanG, chanB, npInterp, xsTab, rsTab, gsTab,
      bsTab, stopTable, interp1]
  · norm_num [colormap, u8cast, pyInt, chanR, chanG, chanB, npInterp, xsTab, rsTab, gsTab,
      bsTab, stopTable, interp1]
  intro a b hab
  refine ⟨?_, ?_, ?_, ?_, ?_, ?_⟩ <;> intro h0 h1 <;> refine ⟨?_, ?_, ?_⟩
  · simp only [chanR_def]
    rw [interp1_tab_seg1 a 0 0 0 255 255 255 255 h0 (hab.trans h1),
      interp1_tab_seg1 b 0 0 0 255 255 255 255 (h0.trans hab) h1]
    linarith
  · simp only [chanG_def]
    rw [interp1_tab_seg1 a 0 180 255 255 165 60 0 h0 (hab.trans h1),
      interp1_tab_seg1 b 0 180 255 255 165 60 0 (h0.trans hab) h1]
    linarith
  · simp only [chanB_def]
    rw [interp1_tab_seg1 a 180 255 0 0 0 0 0 h0 (hab.trans h1),
      interp1_tab_seg1 b 180 255 0 0 0 0 0 (h0.trans hab) h1]
    linarith
  · simp only [chanR_def]
    rw [interp1_tab_seg2 a 0 0 0 255 255 255 255 h0 (hab.trans h1),
      interp1_tab_seg2 b 0 0 0 255 255 255 255 (h0.trans hab) h1]
    linarith
  · simp only [chanG_def]
    rw [interp1_tab_seg2 a 0 180 255 255 165 60 0 h0 (hab.trans h1),
      interp1_tab_seg2 b 0 180 255 255 165 60 0 (h0.trans hab) h1]
    linarith
  · simp only [chanB_def]
    rw [interp1_tab_seg2 a 180 255 0 0 0 0 0 h0 (hab.trans h1),
      interp1_tab_seg2 b 180 255 0 0 0 0 0 (h0.trans hab) h1]
    linarith
  · simp only [chanR_def]
    rw [interp1_tab_seg3 a 0 0 0 255 255 255 255 h0 (hab.trans h1),
      interp1_tab_seg3 b 0 0 0 255 255 255 255 (h0.trans hab) h1]
    linarith
  · simp only [chanG_def]
    rw [interp1_tab_seg3 a 0 180 255 255 165 60 0 h0 (hab.trans h1),
      interp1_tab_seg3 b 0 180 255 255 165 60 0 (h0.trans hab) h1]
    linarith
  · simp only [chanB_def]
    rw [interp1_tab_seg3 a 180 255 0 0 0 0 0 h0 (hab.trans h1),
      interp1_tab_seg3 b 180 255 0 0 0 0 0 (h0.trans hab) h1]
    linarith
  · simp only [chanR_def]
    rw [interp1_tab_seg4 a 0 0 0 255 255 255 255 h0 (hab.trans h1),
      interp1_tab_seg4 b 0 0 0 255 255 255 255 (h0.trans hab) h1]
    linarith
  · simp only [chanG_def]
    rw [interp1_tab_seg4 a 0 180 255 255 165 60 0 h0 (hab.trans h1),
      interp1_tab_seg4 b 0 180 255 255 165 60 0 (h0.trans hab) h1]
    linarith
  · simp only [chanB_def]
    rw [interp1_tab_seg4 a 180 255 0 0 0 0 0 h0 (hab.trans h1),
      interp1_tab_seg4 b 180 255 0 0 0 0 0 (h0.trans hab) h1]
    linarith
  · simp only [chanR_def]
    rw [interp1_tab_seg5 a 0 0 0 255 255 255 255 h0 (hab.trans h1),
      interp1_tab_seg5 b 0 0 0 255 255 255 255 (h0.trans hab) h1]
    linarith
  · simp only [chanG_def]
    rw [interp1_tab_seg5 a 0 180 255 255 165 60 0 h0 (hab.trans h1),
      interp1_tab_seg5 b 0 180 255 255 165 60 0 (h0.trans hab) h1]
    linarith
  · simp only [chanB_def]
    rw [interp1_tab_seg5 a 180 255 0 0 0 0 0 h0 (hab.trans h1),
      interp1_tab_seg5 b 180 255 0 0 0 0 0 (h0.trans hab) h1]
    linarith
  · simp only [chanR_def]
    rw [interp1_tab_seg6 a 0 0 0 255 255 255 255 h0 (hab.trans h1),
      interp1_tab_seg6 b 0 0 0 255 255 255 255 (h0.trans hab) h1]
    linarith
  · simp only [chanG_def]
    rw [interp1_tab_seg6 a 0 180 255 255 165 60 0 h0 (hab.trans h1),
      interp1_tab_seg6 b 0 180 255 255 165 60 0 (h0.trans hab) h1]
    linarith
  · simp only [chanB_def]
    rw [interp1_tab_seg6 a 180 255 0 0 0 0 0 h0 (hab.trans h1),
      interp1_tab_seg6 b 180 255 0 0 0 0 0 (h0.trans hab) h1]
    linarith

/-- C9 witness: the stop exactness and the segment monotonicity applied at the
concrete pair 16 ≤ 17 inside the third segment. -/
theorem colormap_stops_and_monotone_witness :
    colormap 20 = (255, 255, 0) ∧ chanR 16 ≤ chanR 17 :=
  ⟨colormap_stops_and_monotone.2.2.2.1,
    (((colormap_stops_and_monotone.2.2.2.2.2.2.2 16 17 (by norm_num)).2.2.1)
      (by norm_num) (by norm_num)).1⟩

/-- C7. `write_bmp` is atomic with respect to the final-named outputs: after
any prefix of steps that stops before the renames (0, 1 or 2 steps executed)
both final paths are untouched, and after all four steps the raw output holds
exactly the bitmap bytes and the compressed output holds exactly the
compressed copy of those identical bytes. -/
theorem write_bmp_atomic (compress : List ℕ → List ℕ) (bmp : List ℕ) (s0 : FsState) :
    ((write_bmp_run compress bmp 0 s0).outRaw = s0.outRaw ∧
        (write_bmp_run compress bmp 0 s0).outZ = s0.outZ) ∧
      ((write_bmp_run compress bmp 1 s0).outRaw = s0.outRaw ∧
        (write_bmp_run compress bmp 1 s0).outZ = s0.outZ) ∧
      ((write_bmp_run compress bmp 2 s0).outRaw = s0.outRaw ∧
        (write_bmp_run compress bmp 2 s0).outZ = s0.outZ) ∧
      ((write_bmp_run compress bmp 4 s0).outRaw = some bmp ∧
        (write_bmp_run compress bmp 4 s0).outZ = some (compress bmp)) :=
  ⟨⟨rfl, rfl⟩, ⟨rfl, rfl⟩, ⟨rfl, rfl⟩, ⟨rfl, rfl⟩⟩

end MufRT
